import Mathlib

/-!
Shallow embedding of `caffe2/operators/local_response_normalization_op_cudnn.cc`.

The file under verification is a thin adapter: two operators (`CuDNNLRNOp`,
`CuDNNLRNGradientOp`) that cache an input shape, lazily rebuild a cuDNN
tensor descriptor when the shape changes, dispatch on the runtime element
type, and issue the vendor forward/backward LRN calls.  We model the
operator state explicitly, and every vendor-library call as an event
appended to a trace, so that descriptor rebuilds ("set layout" side
effects) and compute calls are observable in theorems.

Scalar floating-point configuration values are only stored and passed
through, never computed with, so they are modelled as rationals.
-/

namespace Caffe2LRN

/-- Runtime element kind of a tensor (`TypeMeta` tag).  `float` and
`float16` are the kinds the operators dispatch on; the other constructors
stand for the remaining caffe2 element kinds, which hit the unsupported
branch. -/
inductive ElemKind
  | float
  | float16
  | double
  | int32
  | int64
  | uint8
deriving DecidableEq

/-- `StorageOrder` from caffe2 core types; this file only ever uses NCHW. -/
inductive StorageOrder
  | NCHW
  | NHWC
deriving DecidableEq

/-- cuDNN tensor format tag. -/
inductive CudnnTensorFormat
  | NCHW
  | NHWC
deriving DecidableEq

/-- Modelled from the spec: `GetCudnnTensorFormat` (declared in
`caffe2/core/common_cudnn.h`, not under `src/`) maps the framework's
memory order to the vendor library's layout tag, per the spec's
"set layout descriptor (..., memory order)" interface. -/
def GetCudnnTensorFormat : StorageOrder → CudnnTensorFormat
  | StorageOrder.NCHW => CudnnTensorFormat.NCHW
  | StorageOrder.NHWC => CudnnTensorFormat.NHWC

/-- A tensor as the adapter sees it: a shape (ordered list of per-dimension
sizes), a runtime element kind, and an opaque payload owned by the external
memory system.  Payload values are never interpreted by the adapter, so we
keep them as an abstract list of rationals. -/
structure Tensor where
  dims : List Nat
  dtype : ElemKind
  rawData : List Rat
deriving DecidableEq

/-- `Tensor::dim32(i)`: the i-th dimension size. -/
def Tensor.dim32 (t : Tensor) (i : Nat) : Nat :=
  t.dims.getD i 0

/-- Modelled from the spec: the typed read pointer `data<T>()`
(`caffe2/core/tensor.h`, not under `src/`).  Per the spec's tensor I/O
interface it exposes the externally owned buffer at the requested element
kind; the buffer contents are the tensor's raw payload. -/
def Tensor.dataRead (t : Tensor) (T : ElemKind) : List Rat :=
  t.rawData

/-- Modelled from the spec: the typed mutable-write pointer
`mutable_data<T>()` (`caffe2/core/tensor.h`, not under `src/`).  Acquiring
it fixes the tensor's element kind to the requested kind; the values the
vendor kernel writes are opaque and left unmodelled. -/
def Tensor.mutableDataAs (t : Tensor) (T : ElemKind) : Tensor :=
  { t with dtype := T }

/-- Modelled from the spec: `ResizeLike` (`caffe2/core/tensor.h`, not under
`src/`), the spec's "in-place resize-to-match-another-tensor": the tensor
takes on the source tensor's shape. -/
def Tensor.resizeLike (t src : Tensor) : Tensor :=
  { t with dims := src.dims }

/-- Contents of the cuDNN 4-d tensor descriptor `data_desc_` once
`cudnnSetTensor4dDescriptor` has run. -/
structure TensorDesc where
  format : CudnnTensorFormat
  dataType : ElemKind
  n : Nat
  c : Nat
  h : Nat
  w : Nat
deriving DecidableEq

/-- Contents of the cuDNN LRN descriptor `norm_desc_` set by
`cudnnSetLRNDescriptor(norm_desc_, size_, alpha_, beta_, bias_)`. -/
structure LRNDesc where
  lrnN : Int
  lrnAlpha : Rat
  lrnBeta : Rat
  lrnK : Rat
deriving DecidableEq

/-- The configuration record consumed at construction: the four named
options read through `OperatorBase::GetSingleArgument`; a `none` field
means the option is absent and the documented default applies. -/
structure LRNArgs where
  size : Option Int := none
  alpha : Option Rat := none
  beta : Option Rat := none
  bias : Option Rat := none
deriving DecidableEq

/-- Mutable-plus-immutable state of one operator instance.  Both
`CuDNNLRNOp` and `CuDNNLRNGradientOp` declare exactly these members:
the tensor descriptor (`none` until first set), the LRN descriptor, the
cached input dims, and the four `const` parameters. -/
structure LRNOpState where
  data_desc_ : Option TensorDesc
  norm_desc_ : LRNDesc
  cudnn_input_dims_ : List Nat
  size_ : Int
  alpha_ : Rat
  beta_ : Rat
  bias_ : Rat
deriving DecidableEq

/-- `CuDNNLRNOp::CuDNNLRNOp`: reads the four arguments with defaults
`size = 0`, `alpha = 0`, `beta = 0`, `bias = 1`, creates the (unset)
tensor descriptor and creates-and-sets the LRN descriptor from the four
parameters.  The cached dims vector starts empty. -/
def mkCuDNNLRNOp (args : LRNArgs) : LRNOpState :=
  let size_ := args.size.getD 0
  let alpha_ := args.alpha.getD 0
  let beta_ := args.beta.getD 0
  let bias_ := args.bias.getD 1
  { data_desc_ := none
    norm_desc_ := { lrnN := size_, lrnAlpha := alpha_, lrnBeta := beta_, lrnK := bias_ }
    cudnn_input_dims_ := []
    size_ := size_
    alpha_ := alpha_
    beta_ := beta_
    bias_ := bias_ }

/-- `CuDNNLRNGradientOp::CuDNNLRNGradientOp`: textually the same
construction as the forward operator. -/
def mkCuDNNLRNGradientOp (args : LRNArgs) : LRNOpState :=
  mkCuDNNLRNOp args

/-- One call into the vendor (cuDNN) library, as observed at the adapter
boundary.  `setTensor4dDescriptor` is the "set layout" side effect; the
two compute constructors record the element/accumulation kind pair, the
descriptor contents passed, and the data buffers marshalled in. -/
inductive VendorCall
  | setTensor4dDescriptor (format : CudnnTensorFormat) (dataType : ElemKind)
      (n : Nat) (c : Nat) (h : Nat) (w : Nat)
  | lrnCrossChannelForward (T : ElemKind) (M : ElemKind)
      (desc : Option TensorDesc) (xData : List Rat)
  | lrnCrossChannelBackward (T : ElemKind) (M : ElemKind)
      (desc : Option TensorDesc) (yData : List Rat) (dyData : List Rat) (xData : List Rat)
deriving DecidableEq

/-- The error raised by `CAFFE_THROW("Unsupported input type")`. -/
inductive LRNError
  | unsupportedInputType
deriving DecidableEq

/-- Observable result of one `RunOnDevice` invocation: the outcome, the
operator state after the call, the output tensor after the call, and the
trace of vendor calls issued. -/
structure RunOutcome where
  err : Option LRNError
  state : LRNOpState
  output : Tensor
  trace : List VendorCall
deriving DecidableEq

/-- `CuDNNLRNOp::DoRunWithType<T, M>`: rebuild the tensor descriptor from
X's dims 0..3 if `X.dims() != cudnn_input_dims_` (recording the new shape
as cached), then issue the forward compute call. -/
def CuDNNLRNOp.DoRunWithType (T M : ElemKind) (s : LRNOpState) (X Y : Tensor) :
    LRNOpState × Tensor × List VendorCall :=
  let (s1, trace1) :=
    if X.dims ≠ s.cudnn_input_dims_ then
      let C := X.dim32 1
      let H := X.dim32 2
      let W := X.dim32 3
      let desc : TensorDesc :=
        { format := GetCudnnTensorFormat StorageOrder.NCHW
          dataType := T
          n := X.dim32 0
          c := C
          h := H
          w := W }
      ({ s with cudnn_input_dims_ := X.dims, data_desc_ := some desc },
        [VendorCall.setTensor4dDescriptor desc.format T (X.dim32 0) C H W])
    else
      (s, [])
  (s1, Y.mutableDataAs T,
    trace1 ++ [VendorCall.lrnCrossChannelForward T M s1.data_desc_ (X.dataRead T)])

/-- `CuDNNLRNOp::RunOnDevice`: resize Y like X, then dispatch on X's
element kind: `float` runs `DoRunWithType<float, float>`, `float16` runs
`DoRunWithType<float16, float>`, anything else throws. -/
def CuDNNLRNOp.RunOnDevice (s : LRNOpState) (X Y : Tensor) : RunOutcome :=
  let Y1 := Y.resizeLike X
  if X.dtype = ElemKind.float then
    let (s2, Y2, tr) := CuDNNLRNOp.DoRunWithType ElemKind.float ElemKind.float s X Y1
    { err := none, state := s2, output := Y2, trace := tr }
  else if X.dtype = ElemKind.float16 then
    let (s2, Y2, tr) := CuDNNLRNOp.DoRunWithType ElemKind.float16 ElemKind.float s X Y1
    { err := none, state := s2, output := Y2, trace := tr }
  else
    { err := some LRNError.unsupportedInputType, state := s, output := Y1, trace := [] }

/-- `CuDNNLRNGradientOp::DoRunWithType<T, M>`: rebuild the tensor
descriptor from dY's dims 0..3 if `dY.dims() != cudnn_input_dims_`, then
issue the backward compute call, marshalling Y's, dY's and X's buffers at
element kind T. -/
def CuDNNLRNGradientOp.DoRunWithType (T M : ElemKind) (s : LRNOpState)
    (X Y dY dX : Tensor) : LRNOpState × Tensor × List VendorCall :=
  let (s1, trace1) :=
    if dY.dims ≠ s.cudnn_input_dims_ then
      let C := dY.dim32 1
      let H := dY.dim32 2
      let W := dY.dim32 3
      let desc : TensorDesc :=
        { format := GetCudnnTensorFormat StorageOrder.NCHW
          dataType := T
          n := dY.dim32 0
          c := C
          h := H
          w := W }
      ({ s with cudnn_input_dims_ := dY.dims, data_desc_ := some desc },
        [VendorCall.setTensor4dDescriptor desc.format T (dY.dim32 0) C H W])
    else
      (s, [])
  (s1, dX.mutableDataAs T,
    trace1 ++ [VendorCall.lrnCrossChannelBackward T M s1.data_desc_
      (Y.dataRead T) (dY.dataRead T) (X.dataRead T)])

/-- `CuDNNLRNGradientOp::RunOnDevice`: resize dX like dY, then dispatch on
dY's element kind exactly as the forward operator does on X's. -/
def CuDNNLRNGradientOp.RunOnDevice (s : LRNOpState) (X Y dY dX : Tensor) :
    RunOutcome :=
  let dX1 := dX.resizeLike dY
  if dY.dtype = ElemKind.float then
    let (s2, dX2, tr) := CuDNNLRNGradientOp.DoRunWithType ElemKind.float ElemKind.float s X Y dY dX1
    { err := none, state := s2, output := dX2, trace := tr }
  else if dY.dtype = ElemKind.float16 then
    let (s2, dX2, tr) := CuDNNLRNGradientOp.DoRunWithType ElemKind.float16 ElemKind.float s X Y dY dX1
    { err := none, state := s2, output := dX2, trace := tr }
  else
    { err := some LRNError.unsupportedInputType, state := s, output := dX1, trace := [] }

/-- Whether a trace contains a "set layout" (descriptor rebuild) call. -/
def traceHasSetLayout (tr : List VendorCall) : Bool :=
  tr.any fun e =>
    match e with
    | VendorCall.setTensor4dDescriptor _ _ _ _ _ _ => true
    | _ => false

/-- The (element kind, accumulation kind) pairs of the forward compute
calls in a trace, in order. -/
def forwardComputePairs (tr : List VendorCall) : List (ElemKind × ElemKind) :=
  tr.filterMap fun e =>
    match e with
    | VendorCall.lrnCrossChannelForward T M _ _ => some (T, M)
    | _ => none

/-- The (element kind, accumulation kind) pairs of the backward compute
calls in a trace, in order. -/
def backwardComputePairs (tr : List VendorCall) : List (ElemKind × ElemKind) :=
  tr.filterMap fun e =>
    match e with
    | VendorCall.lrnCrossChannelBackward T M _ _ _ _ => some (T, M)
    | _ => none

/-- The descriptor's four extents agree with the tensor's dims 0..3. -/
def TensorDesc.matchesDims (d : TensorDesc) (t : Tensor) : Prop :=
  d.n = t.dim32 0 ∧ d.c = t.dim32 1 ∧ d.h = t.dim32 2 ∧ d.w = t.dim32 3

instance (d : TensorDesc) (t : Tensor) : Decidable (TensorDesc.matchesDims d t) :=
  inferInstanceAs (Decidable (d.n = t.dim32 0 ∧ d.c = t.dim32 1 ∧ d.h = t.dim32 2 ∧ d.w = t.dim32 3))

/-- Reachability invariant: whenever a shape has been cached, the tensor
descriptor has been set and its extents agree with the cached dims. -/
def LRNOpState.descReflectsCache (s : LRNOpState) : Bool :=
  s.cudnn_input_dims_.isEmpty ||
    match s.data_desc_ with
    | none => false
    | some d =>
      (d.n == s.cudnn_input_dims_.getD 0 0) &&
      (d.c == s.cudnn_input_dims_.getD 1 0) &&
      (d.h == s.cudnn_input_dims_.getD 2 0) &&
      (d.w == s.cudnn_input_dims_.getD 3 0)

/-! ### Equation lemmas for the two code paths of each operator -/

theorem CuDNNLRNOp.doRunWithType_rebuild (T M : ElemKind) (s : LRNOpState) (X Y : Tensor)
    (h : X.dims ≠ s.cudnn_input_dims_) :
    CuDNNLRNOp.DoRunWithType T M s X Y =
      ({ s with
          cudnn_input_dims_ := X.dims
          data_desc_ := some
            { format := CudnnTensorFormat.NCHW, dataType := T,
              n := X.dim32 0, c := X.dim32 1, h := X.dim32 2, w := X.dim32 3 } },
        Y.mutableDataAs T,
        [VendorCall.setTensor4dDescriptor CudnnTensorFormat.NCHW T
            (X.dim32 0) (X.dim32 1) (X.dim32 2) (X.dim32 3),
          VendorCall.lrnCrossChannelForward T M
            (some { format := CudnnTensorFormat.NCHW, dataType := T,
                    n := X.dim32 0, c := X.dim32 1, h := X.dim32 2, w := X.dim32 3 })
            (X.dataRead T)]) := by
  unfold CuDNNLRNOp.DoRunWithType
  rw [if_pos h]
  rfl

theorem CuDNNLRNOp.doRunWithType_norebuild (T M : ElemKind) (s : LRNOpState) (X Y : Tensor)
    (h : X.dims = s.cudnn_input_dims_) :
    CuDNNLRNOp.DoRunWithType T M s X Y =
      (s, Y.mutableDataAs T,
        [VendorCall.lrnCrossChannelForward T M s.data_desc_ (X.dataRead T)]) := by
  unfold CuDNNLRNOp.DoRunWithType
  rw [if_neg (not_not_intro h)]
  rfl

theorem CuDNNLRNGradientOp.gradDoRunWithType_rebuild (T M : ElemKind) (s : LRNOpState)
    (X Y dY dX : Tensor) (h : dY.dims ≠ s.cudnn_input_dims_) :
    CuDNNLRNGradientOp.DoRunWithType T M s X Y dY dX =
      ({ s with
          cudnn_input_dims_ := dY.dims
          data_desc_ := some
            { format := CudnnTensorFormat.NCHW, dataType := T,
              n := dY.dim32 0, c := dY.dim32 1, h := dY.dim32 2, w := dY.dim32 3 } },
        dX.mutableDataAs T,
        [VendorCall.setTensor4dDescriptor CudnnTensorFormat.NCHW T
            (dY.dim32 0) (dY.dim32 1) (dY.dim32 2) (dY.dim32 3),
          VendorCall.lrnCrossChannelBackward T M
            (some { format := CudnnTensorFormat.NCHW, dataType := T,
                    n := dY.dim32 0, c := dY.dim32 1, h := dY.dim32 2, w := dY.dim32 3 })
            (Y.dataRead T) (dY.dataRead T) (X.dataRead T)]) := by
  unfold CuDNNLRNGradientOp.DoRunWithType
  rw [if_pos h]
  rfl

theorem CuDNNLRNGradientOp.gradDoRunWithType_norebuild (T M : ElemKind) (s : LRNOpState)
    (X Y dY dX : Tensor) (h : dY.dims = s.cudnn_input_dims_) :
    CuDNNLRNGradientOp.DoRunWithType T M s X Y dY dX =
      (s, dX.mutableDataAs T,
        [VendorCall.lrnCrossChannelBackward T M s.data_desc_
          (Y.dataRead T) (dY.dataRead T) (X.dataRead T)]) := by
  unfold CuDNNLRNGradientOp.DoRunWithType
  rw [if_neg (not_not_intro h)]
  rfl

theorem CuDNNLRNOp.runOnDevice_unsupported (s : LRNOpState) (X Y : Tensor)
    (h1 : X.dtype ≠ ElemKind.float) (h2 : X.dtype ≠ ElemKind.float16) :
    CuDNNLRNOp.RunOnDevice s X Y =
      { err := some LRNError.unsupportedInputType, state := s,
        output := Y.resizeLike X, trace := [] } := by
  unfold CuDNNLRNOp.RunOnDevice
  rw [if_neg h1, if_neg h2]

theorem CuDNNLRNGradientOp.gradRunOnDevice_unsupported (s : LRNOpState) (X Y dY dX : Tensor)
    (h1 : dY.dtype ≠ ElemKind.float) (h2 : dY.dtype ≠ ElemKind.float16) :
    CuDNNLRNGradientOp.RunOnDevice s X Y dY dX =
      { err := some LRNError.unsupportedInputType, state := s,
        output := dX.resizeLike dY, trace := [] } := by
  unfold CuDNNLRNGradientOp.RunOnDevice
  rw [if_neg h1, if_neg h2]

/-- The descriptor contents `cudnnSetTensor4dDescriptor` installs for
element kind `T` and a given input tensor. -/
def descOf (T : ElemKind) (t : Tensor) : TensorDesc :=
  { format := CudnnTensorFormat.NCHW, dataType := T,
    n := t.dim32 0, c := t.dim32 1, h := t.dim32 2, w := t.dim32 3 }

theorem CuDNNLRNOp.run_float_rebuild (s : LRNOpState) (X Y : Tensor)
    (hf : X.dtype = ElemKind.float) (hc : X.dims ≠ s.cudnn_input_dims_) :
    CuDNNLRNOp.RunOnDevice s X Y =
      { err := none,
        state := { s with
            cudnn_input_dims_ := X.dims
            data_desc_ := some (descOf ElemKind.float X) },
        output := (Y.resizeLike X).mutableDataAs ElemKind.float,
        trace := [VendorCall.setTensor4dDescriptor CudnnTensorFormat.NCHW ElemKind.float
            (X.dim32 0) (X.dim32 1) (X.dim32 2) (X.dim32 3),
          VendorCall.lrnCrossChannelForward ElemKind.float ElemKind.float
            (some (descOf ElemKind.float X)) (X.dataRead ElemKind.float)] } := by
  simp only [CuDNNLRNOp.RunOnDevice]
  rw [if_pos hf, CuDNNLRNOp.doRunWithType_rebuild _ _ _ _ _ hc]
  rfl

theorem CuDNNLRNOp.run_float_norebuild (s : LRNOpState) (X Y : Tensor)
    (hf : X.dtype = ElemKind.float) (hc : X.dims = s.cudnn_input_dims_) :
    CuDNNLRNOp.RunOnDevice s X Y =
      { err := none, state := s,
        output := (Y.resizeLike X).mutableDataAs ElemKind.float,
        trace := [VendorCall.lrnCrossChannelForward ElemKind.float ElemKind.float
            s.data_desc_ (X.dataRead ElemKind.float)] } := by
  simp only [CuDNNLRNOp.RunOnDevice]
  rw [if_pos hf, CuDNNLRNOp.doRunWithType_norebuild _ _ _ _ _ hc]

theorem CuDNNLRNOp.run_half_rebuild (s : LRNOpState) (X Y : Tensor)
    (hf : X.dtype = ElemKind.float16) (hc : X.dims ≠ s.cudnn_input_dims_) :
    CuDNNLRNOp.RunOnDevice s X Y =
      { err := none,
        state := { s with
            cudnn_input_dims_ := X.dims
            data_desc_ := some (descOf ElemKind.float16 X) },
        output := (Y.resizeLike X).mutableDataAs ElemKind.float16,
        trace := [VendorCall.setTensor4dDescriptor CudnnTensorFormat.NCHW ElemKind.float16
            (X.dim32 0) (X.dim32 1) (X.dim32 2) (X.dim32 3),
          VendorCall.lrnCrossChannelForward ElemKind.float16 ElemKind.float
            (some (descOf ElemKind.float16 X)) (X.dataRead ElemKind.float16)] } := by
  simp only [CuDNNLRNOp.RunOnDevice]
  rw [if_neg (by rw [hf]; exact fun h => nomatch h), if_pos hf,
    CuDNNLRNOp.doRunWithType_rebuild _ _ _ _ _ hc]
  rfl

theorem CuDNNLRNOp.run_half_norebuild (s : LRNOpState) (X Y : Tensor)
    (hf : X.dtype = ElemKind.float16) (hc : X.dims = s.cudnn_input_dims_) :
    CuDNNLRNOp.RunOnDevice s X Y =
      { err := none, state := s,
        output := (Y.resizeLike X).mutableDataAs ElemKind.float16,
        trace := [VendorCall.lrnCrossChannelForward ElemKind.float16 ElemKind.float
            s.data_desc_ (X.dataRead ElemKind.float16)] } := by
  simp only [CuDNNLRNOp.RunOnDevice]
  rw [if_neg (by rw [hf]; exact fun h => nomatch h), if_pos hf,
    CuDNNLRNOp.doRunWithType_norebuild _ _ _ _ _ hc]

theorem CuDNNLRNGradientOp.gradRun_float_rebuild (s : LRNOpState) (X Y dY dX : Tensor)
    (hf : dY.dtype = ElemKind.float) (hc : dY.dims ≠ s.cudnn_input_dims_) :
    CuDNNLRNGradientOp.RunOnDevice s X Y dY dX =
      { err := none,
        state := { s with
            cudnn_input_dims_ := dY.dims
            data_desc_ := some (descOf ElemKind.float dY) },
        output := (dX.resizeLike dY).mutableDataAs ElemKind.float,
        trace := [VendorCall.setTensor4dDescriptor CudnnTensorFormat.NCHW ElemKind.float
            (dY.dim32 0) (dY.dim32 1) (dY.dim32 2) (dY.dim32 3),
          VendorCall.lrnCrossChannelBackward ElemKind.float ElemKind.float
            (some (descOf ElemKind.float dY))
            (Y.dataRead ElemKind.float) (dY.dataRead ElemKind.float)
            (X.dataRead ElemKind.float)] } := by
  simp only [CuDNNLRNGradientOp.RunOnDevice]
  rw [if_pos hf, CuDNNLRNGradientOp.gradDoRunWithType_rebuild _ _ _ _ _ _ _ hc]
  rfl

theorem CuDNNLRNGradientOp.gradRun_float_norebuild (s : LRNOpState) (X Y dY dX : Tensor)
    (hf : dY.dtype = ElemKind.float) (hc : dY.dims = s.cudnn_input_dims_) :
    CuDNNLRNGradientOp.RunOnDevice s X Y dY dX =
      { err := none, state := s,
        output := (dX.resizeLike dY).mutableDataAs ElemKind.float,
        trace := [VendorCall.lrnCrossChannelBackward ElemKind.float ElemKind.float
            s.data_desc_
            (Y.dataRead ElemKind.float) (dY.dataRead ElemKind.float)
            (X.dataRead ElemKind.float)] } := by
  simp only [CuDNNLRNGradientOp.RunOnDevice]
  rw [if_pos hf, CuDNNLRNGradientOp.gradDoRunWithType_norebuild _ _ _ _ _ _ _ hc]

theorem CuDNNLRNGradientOp.gradRun_half_rebuild (s : LRNOpState) (X Y dY dX : Tensor)
    (hf : dY.dtype = ElemKind.float16) (hc : dY.dims ≠ s.cudnn_input_dims_) :
    CuDNNLRNGradientOp.RunOnDevice s X Y dY dX =
      { err := none,
        state := { s with
            cudnn_input_dims_ := dY.dims
            data_desc_ := some (descOf ElemKind.float16 dY) },
        output := (dX.resizeLike dY).mutableDataAs ElemKind.float16,
        trace := [VendorCall.setTensor4dDescriptor CudnnTensorFormat.NCHW ElemKind.float16
            (dY.dim32 0) (dY.dim32 1) (dY.dim32 2) (dY.dim32 3),
          VendorCall.lrnCrossChannelBackward ElemKind.float16 ElemKind.float
            (some (descOf ElemKind.float16 dY))
            (Y.dataRead ElemKind.float16) (dY.dataRead ElemKind.float16)
            (X.dataRead ElemKind.float16)] } := by
  simp only [CuDNNLRNGradientOp.RunOnDevice]
  rw [if_neg (by rw [hf]; exact fun h => nomatch h), if_pos hf,
    CuDNNLRNGradientOp.gradDoRunWithType_rebuild _ _ _ _ _ _ _ hc]
  rfl

theorem CuDNNLRNGradientOp.gradRun_half_norebuild (s : LRNOpState) (X Y dY dX : Tensor)
    (hf : dY.dtype = ElemKind.float16) (hc : dY.dims = s.cudnn_input_dims_) :
    CuDNNLRNGradientOp.RunOnDevice s X Y dY dX =
      { err := none, state := s,
        output := (dX.resizeLike dY).mutableDataAs ElemKind.float16,
        trace := [VendorCall.lrnCrossChannelBackward ElemKind.float16 ElemKind.float
            s.data_desc_
            (Y.dataRead ElemKind.float16) (dY.dataRead ElemKind.float16)
            (X.dataRead ElemKind.float16)] } := by
  simp only [CuDNNLRNGradientOp.RunOnDevice]
  rw [if_neg (by rw [hf]; exact fun h => nomatch h), if_pos hf,
    CuDNNLRNGradientOp.gradDoRunWithType_norebuild _ _ _ _ _ _ _ hc]

/-! ### The descriptor/cache invariant: established at construction,
preserved by every invocation -/

theorem descReflectsCache_mk (args : LRNArgs) :
    (mkCuDNNLRNOp args).descReflectsCache = true := by
  unfold mkCuDNNLRNOp LRNOpState.descReflectsCache
  simp

theorem descReflectsCache_elim (s : LRNOpState) (t : Tensor)
    (hs : s.descReflectsCache = true) (hc : t.dims = s.cudnn_input_dims_)
    (hne : t.dims ≠ []) :
    ∃ d, s.data_desc_ = some d ∧ d.matchesDims t := by
  have hne' : s.cudnn_input_dims_ ≠ [] := hc ▸ hne
  unfold LRNOpState.descReflectsCache at hs
  cases hdd : s.data_desc_ with
  | none =>
      rw [hdd] at hs
      simp [List.isEmpty_iff, hne'] at hs
  | some d =>
      rw [hdd] at hs
      simp [List.isEmpty_iff, hne'] at hs
      refine ⟨d, rfl, ?_, ?_, ?_, ?_⟩ <;>
        simp [Tensor.dim32, hc, hs]

/-- Either an invocation leaves the forward operator state untouched, or it
only updates the cached dims (to X's dims) and the tensor descriptor. -/
theorem CuDNNLRNOp.run_state_cases (s : LRNOpState) (X Y : Tensor) :
    (CuDNNLRNOp.RunOnDevice s X Y).state = s ∨
    ∃ d, (CuDNNLRNOp.RunOnDevice s X Y).state =
      { s with cudnn_input_dims_ := X.dims, data_desc_ := some d } := by
  by_cases hf : X.dtype = ElemKind.float
  · by_cases hc : X.dims = s.cudnn_input_dims_
    · exact Or.inl (by rw [CuDNNLRNOp.run_float_norebuild s X Y hf hc])
    · exact Or.inr ⟨descOf ElemKind.float X, by rw [CuDNNLRNOp.run_float_rebuild s X Y hf hc]⟩
  · by_cases hh : X.dtype = ElemKind.float16
    · by_cases hc : X.dims = s.cudnn_input_dims_
      · exact Or.inl (by rw [CuDNNLRNOp.run_half_norebuild s X Y hh hc])
      · exact Or.inr ⟨descOf ElemKind.float16 X, by rw [CuDNNLRNOp.run_half_rebuild s X Y hh hc]⟩
    · exact Or.inl (by rw [CuDNNLRNOp.runOnDevice_unsupported s X Y hf hh])

/-- Backward analogue of `CuDNNLRNOp.run_state_cases`, keyed on dY. -/
theorem CuDNNLRNGradientOp.gradRun_state_cases (s : LRNOpState) (X Y dY dX : Tensor) :
    (CuDNNLRNGradientOp.RunOnDevice s X Y dY dX).state = s ∨
    ∃ d, (CuDNNLRNGradientOp.RunOnDevice s X Y dY dX).state =
      { s with cudnn_input_dims_ := dY.dims, data_desc_ := some d } := by
  by_cases hf : dY.dtype = ElemKind.float
  · by_cases hc : dY.dims = s.cudnn_input_dims_
    · exact Or.inl (by rw [CuDNNLRNGradientOp.gradRun_float_norebuild s X Y dY dX hf hc])
    · exact Or.inr ⟨descOf ElemKind.float dY,
        by rw [CuDNNLRNGradientOp.gradRun_float_rebuild s X Y dY dX hf hc]⟩
  · by_cases hh : dY.dtype = ElemKind.float16
    · by_cases hc : dY.dims = s.cudnn_input_dims_
      · exact Or.inl (by rw [CuDNNLRNGradientOp.gradRun_half_norebuild s X Y dY dX hh hc])
      · exact Or.inr ⟨descOf ElemKind.float16 dY,
          by rw [CuDNNLRNGradientOp.gradRun_half_rebuild s X Y dY dX hh hc]⟩
    · exact Or.inl (by rw [CuDNNLRNGradientOp.gradRunOnDevice_unsupported s X Y dY dX hf hh])

/-! ### Sample concrete inputs for witnesses and counterexamples -/

/-- A freshly constructed operator (all arguments at their defaults). -/
def s0 : LRNOpState := mkCuDNNLRNOp {}

/-- A rank-4 single-precision input of shape (2,8,4,4). -/
def xF : Tensor := { dims := [2, 8, 4, 4], dtype := ElemKind.float, rawData := [] }

/-- A rank-4 half-precision input of shape (2,8,4,4). -/
def xH : Tensor := { dims := [2, 8, 4, 4], dtype := ElemKind.float16, rawData := [] }

/-- A rank-4 single-precision input of the different shape (4,8,4,4). -/
def xF2 : Tensor := { dims := [4, 8, 4, 4], dtype := ElemKind.float, rawData := [] }

/-- A rank-4 input of unsupported (int32) element kind. -/
def xI : Tensor := { dims := [2, 8, 4, 4], dtype := ElemKind.int32, rawData := [] }

/-- A scratch output tensor whose pre-call shape [7] differs from the inputs. -/
def yScratch : Tensor := { dims := [7], dtype := ElemKind.float, rawData := [] }

/-- A rank-1 half-precision tensor of shape [7], used as a deliberately
mismatched backward input. -/
def yH7 : Tensor := { dims := [7], dtype := ElemKind.float16, rawData := [] }

/-- No invocation of the forward operator changes the four stored
parameters or the LRN descriptor. -/
theorem CuDNNLRNOp.run_preserves_immutable (s : LRNOpState) (X Y : Tensor) :
    (CuDNNLRNOp.RunOnDevice s X Y).state.norm_desc_ = s.norm_desc_ ∧
    (CuDNNLRNOp.RunOnDevice s X Y).state.size_ = s.size_ ∧
    (CuDNNLRNOp.RunOnDevice s X Y).state.alpha_ = s.alpha_ ∧
    (CuDNNLRNOp.RunOnDevice s X Y).state.beta_ = s.beta_ ∧
    (CuDNNLRNOp.RunOnDevice s X Y).state.bias_ = s.bias_ := by
  rcases CuDNNLRNOp.run_state_cases s X Y with h | ⟨d, h⟩ <;> rw [h] <;>
    exact ⟨rfl, rfl, rfl, rfl, rfl⟩

/-- No invocation of the backward operator changes the four stored
parameters or the LRN descriptor. -/
theorem CuDNNLRNGradientOp.gradRun_preserves_immutable (s : LRNOpState) (X Y dY dX : Tensor) :
    (CuDNNLRNGradientOp.RunOnDevice s X Y dY dX).state.norm_desc_ = s.norm_desc_ ∧
    (CuDNNLRNGradientOp.RunOnDevice s X Y dY dX).state.size_ = s.size_ ∧
    (CuDNNLRNGradientOp.RunOnDevice s X Y dY dX).state.alpha_ = s.alpha_ ∧
    (CuDNNLRNGradientOp.RunOnDevice s X Y dY dX).state.beta_ = s.beta_ ∧
    (CuDNNLRNGradientOp.RunOnDevice s X Y dY dX).state.bias_ = s.bias_ := by
  rcases CuDNNLRNGradientOp.gradRun_state_cases s X Y dY dX with h | ⟨d, h⟩ <;> rw [h] <;>
    exact ⟨rfl, rfl, rfl, rfl, rfl⟩

/-! ### Claim theorems -/

/-- C4: the forward operator raises the unsupported-type error if and only
if the input's element kind is neither single- nor half-precision float;
for those two kinds it instead reaches the type-specialized path, issuing
the forward compute call at exactly the input's element kind. -/
theorem forward_unsupported_error_iff (s : LRNOpState) (X Y : Tensor) :
    ((CuDNNLRNOp.RunOnDevice s X Y).err = some LRNError.unsupportedInputType ↔
      (X.dtype ≠ ElemKind.float ∧ X.dtype ≠ ElemKind.float16)) ∧
    (X.dtype = ElemKind.float ∨ X.dtype = ElemKind.float16 →
      forwardComputePairs (CuDNNLRNOp.RunOnDevice s X Y).trace =
        [(X.dtype, ElemKind.float)]) := by
  by_cases hf : X.dtype = ElemKind.float
  · by_cases hc : X.dims = s.cudnn_input_dims_
    · rw [CuDNNLRNOp.run_float_norebuild s X Y hf hc]
      exact ⟨by simp [hf], fun _ => by simp only [hf]; rfl⟩
    · rw [CuDNNLRNOp.run_float_rebuild s X Y hf hc]
      exact ⟨by simp [hf], fun _ => by simp only [hf]; rfl⟩
  · by_cases hh : X.dtype = ElemKind.float16
    · by_cases hc : X.dims = s.cudnn_input_dims_
      · rw [CuDNNLRNOp.run_half_norebuild s X Y hh hc]
        exact ⟨by simp [hh], fun _ => by simp only [hh]; rfl⟩
      · rw [CuDNNLRNOp.run_half_rebuild s X Y hh hc]
        exact ⟨by simp [hh], fun _ => by simp only [hh]; rfl⟩
    · rw [CuDNNLRNOp.runOnDevice_unsupported s X Y hf hh]
      refine ⟨by simp [hf, hh], fun h => ?_⟩
      cases h with
      | inl h => exact absurd h hf
      | inr h => exact absurd h hh

/-- C5: for every rank-4 input of supported element kind, the forward
invocation succeeds and leaves the output tensor with exactly the input's
shape (Y is resized to match X before the compute call). -/
theorem forward_output_shape_matches_input (s : LRNOpState) (X Y : Tensor)
    (hT : X.dtype = ElemKind.float ∨ X.dtype = ElemKind.float16)
    (h4 : X.dims.length = 4) :
    (CuDNNLRNOp.RunOnDevice s X Y).err = none ∧
    (CuDNNLRNOp.RunOnDevice s X Y).output.dims = X.dims := by
  rcases hT with hf | hf
  · by_cases hc : X.dims = s.cudnn_input_dims_
    · rw [CuDNNLRNOp.run_float_norebuild s X Y hf hc]; exact ⟨rfl, rfl⟩
    · rw [CuDNNLRNOp.run_float_rebuild s X Y hf hc]; exact ⟨rfl, rfl⟩
  · by_cases hc : X.dims = s.cudnn_input_dims_
    · rw [CuDNNLRNOp.run_half_norebuild s X Y hf hc]; exact ⟨rfl, rfl⟩
    · rw [CuDNNLRNOp.run_half_rebuild s X Y hf hc]; exact ⟨rfl, rfl⟩

/-- Witness for C5 at the concrete shape (2,8,4,4). -/
theorem forward_output_shape_matches_input_witness :
    (xF.dtype = ElemKind.float ∨ xF.dtype = ElemKind.float16) ∧
    xF.dims.length = 4 ∧
    ((CuDNNLRNOp.RunOnDevice s0 xF yScratch).err = none ∧
      (CuDNNLRNOp.RunOnDevice s0 xF yScratch).output.dims = xF.dims) :=
  ⟨Or.inl rfl, rfl, forward_output_shape_matches_input s0 xF yScratch (Or.inl rfl) rfl⟩

/-- C3 counterexample: on an unsupported (int32) input the forward operator
does raise the unsupported-type error, but only after the output tensor was
already resized from its prior shape [7] to X's shape [2,8,4,4]: observable
state is modified before the error is raised, contradicting the claim. -/
theorem unsupported_type_output_resized_cex :
    (CuDNNLRNOp.RunOnDevice s0 xI yScratch).err = some LRNError.unsupportedInputType ∧
    yScratch.dims = [7] ∧
    (CuDNNLRNOp.RunOnDevice s0 xI yScratch).output.dims = [2, 8, 4, 4] := by
  exact ⟨rfl, rfl, rfl⟩

/-- C3 (amended): for every input whose element kind is not single- or
half-precision float, the forward operator fails with the unsupported-type
error before any descriptor work and before any vendor call — the vendor
trace is empty and the operator state is unchanged — but only after the one
prior side effect of resizing the output tensor to X's shape. -/
theorem unsupported_type_failfast_amended (s : LRNOpState) (X Y : Tensor)
    (h1 : X.dtype ≠ ElemKind.float) (h2 : X.dtype ≠ ElemKind.float16) :
    (CuDNNLRNOp.RunOnDevice s X Y).err = some LRNError.unsupportedInputType ∧
    (CuDNNLRNOp.RunOnDevice s X Y).trace = [] ∧
    (CuDNNLRNOp.RunOnDevice s X Y).state = s ∧
    (CuDNNLRNOp.RunOnDevice s X Y).output = Y.resizeLike X := by
  rw [CuDNNLRNOp.runOnDevice_unsupported s X Y h1 h2]
  exact ⟨rfl, rfl, rfl, rfl⟩

/-- Witness for the amended C3 at a concrete int32 input. -/
theorem unsupported_type_failfast_amended_witness :
    xI.dtype ≠ ElemKind.float ∧ xI.dtype ≠ ElemKind.float16 ∧
    ((CuDNNLRNOp.RunOnDevice s0 xI yScratch).err = some LRNError.unsupportedInputType ∧
      (CuDNNLRNOp.RunOnDevice s0 xI yScratch).trace = [] ∧
      (CuDNNLRNOp.RunOnDevice s0 xI yScratch).state = s0 ∧
      (CuDNNLRNOp.RunOnDevice s0 xI yScratch).output = yScratch.resizeLike xI) :=
  ⟨by decide, by decide,
    unsupported_type_failfast_amended s0 xI yScratch (by decide) (by decide)⟩

/-- C7: complete characterization of the compute-type pairings: a float
input computes with (float, float), a float16 input with (float16, float),
and no compute call is issued otherwise — in both the forward and the
backward operator. -/
theorem compute_type_pairing_characterization (s sg : LRNOpState)
    (X Y Xg Yg dYg dXg : Tensor) :
    forwardComputePairs (CuDNNLRNOp.RunOnDevice s X Y).trace =
      (if X.dtype = ElemKind.float then [(ElemKind.float, ElemKind.float)]
       else if X.dtype = ElemKind.float16 then [(ElemKind.float16, ElemKind.float)]
       else []) ∧
    backwardComputePairs (CuDNNLRNGradientOp.RunOnDevice sg Xg Yg dYg dXg).trace =
      (if dYg.dtype = ElemKind.float then [(ElemKind.float, ElemKind.float)]
       else if dYg.dtype = ElemKind.float16 then [(ElemKind.float16, ElemKind.float)]
       else []) := by
  constructor
  · by_cases hf : X.dtype = ElemKind.float
    · rw [if_pos hf]
      by_cases hc : X.dims = s.cudnn_input_dims_
      · rw [CuDNNLRNOp.run_float_norebuild s X Y hf hc]; rfl
      · rw [CuDNNLRNOp.run_float_rebuild s X Y hf hc]; rfl
    · rw [if_neg hf]
      by_cases hh : X.dtype = ElemKind.float16
      · rw [if_pos hh]
        by_cases hc : X.dims = s.cudnn_input_dims_
        · rw [CuDNNLRNOp.run_half_norebuild s X Y hh hc]; rfl
        · rw [CuDNNLRNOp.run_half_rebuild s X Y hh hc]; rfl
      · rw [if_neg hh, CuDNNLRNOp.runOnDevice_unsupported s X Y hf hh]; rfl
  · by_cases hf : dYg.dtype = ElemKind.float
    · rw [if_pos hf]
      by_cases hc : dYg.dims = sg.cudnn_input_dims_
      · rw [CuDNNLRNGradientOp.gradRun_float_norebuild sg Xg Yg dYg dXg hf hc]; rfl
      · rw [CuDNNLRNGradientOp.gradRun_float_rebuild sg Xg Yg dYg dXg hf hc]; rfl
    · rw [if_neg hf]
      by_cases hh : dYg.dtype = ElemKind.float16
      · rw [if_pos hh]
        by_cases hc : dYg.dims = sg.cudnn_input_dims_
        · rw [CuDNNLRNGradientOp.gradRun_half_norebuild sg Xg Yg dYg dXg hh hc]; rfl
        · rw [CuDNNLRNGradientOp.gradRun_half_rebuild sg Xg Yg dYg dXg hh hc]; rfl
      · rw [if_neg hh, CuDNNLRNGradientOp.gradRunOnDevice_unsupported sg Xg Yg dYg dXg hf hh]; rfl

/-- C8: at construction both operators read the four options with defaults
size = 0, alpha = 0, beta = 0, bias = 1; the LRN descriptor is set once
from exactly these four parameters; and no invocation of either operator
mutates the parameters or the LRN descriptor. -/
theorem construction_defaults_and_immutability (args : LRNArgs) (s sg : LRNOpState)
    (X Y Xg Yg dYg dXg : Tensor) :
    ((mkCuDNNLRNOp args).size_ = args.size.getD 0 ∧
      (mkCuDNNLRNOp args).alpha_ = args.alpha.getD 0 ∧
      (mkCuDNNLRNOp args).beta_ = args.beta.getD 0 ∧
      (mkCuDNNLRNOp args).bias_ = args.bias.getD 1) ∧
    (mkCuDNNLRNOp args).norm_desc_ =
      { lrnN := (mkCuDNNLRNOp args).size_, lrnAlpha := (mkCuDNNLRNOp args).alpha_,
        lrnBeta := (mkCuDNNLRNOp args).beta_, lrnK := (mkCuDNNLRNOp args).bias_ } ∧
    mkCuDNNLRNGradientOp args = mkCuDNNLRNOp args ∧
    ((CuDNNLRNOp.RunOnDevice s X Y).state.norm_desc_ = s.norm_desc_ ∧
      (CuDNNLRNOp.RunOnDevice s X Y).state.size_ = s.size_ ∧
      (CuDNNLRNOp.RunOnDevice s X Y).state.alpha_ = s.alpha_ ∧
      (CuDNNLRNOp.RunOnDevice s X Y).state.beta_ = s.beta_ ∧
      (CuDNNLRNOp.RunOnDevice s X Y).state.bias_ = s.bias_) ∧
    ((CuDNNLRNGradientOp.RunOnDevice sg Xg Yg dYg dXg).state.norm_desc_ = sg.norm_desc_ ∧
      (CuDNNLRNGradientOp.RunOnDevice sg Xg Yg dYg dXg).state.size_ = sg.size_ ∧
      (CuDNNLRNGradientOp.RunOnDevice sg Xg Yg dYg dXg).state.alpha_ = sg.alpha_ ∧
      (CuDNNLRNGradientOp.RunOnDevice sg Xg Yg dYg dXg).state.beta_ = sg.beta_ ∧
      (CuDNNLRNGradientOp.RunOnDevice sg Xg Yg dYg dXg).state.bias_ = sg.bias_) :=
  ⟨⟨rfl, rfl, rfl, rfl⟩, rfl, rfl,
    CuDNNLRNOp.run_preserves_immutable s X Y,
    CuDNNLRNGradientOp.gradRun_preserves_immutable sg Xg Yg dYg dXg⟩

/-- After a successful forward run the cached dims equal the input's dims. -/
theorem CuDNNLRNOp.run_cache_eq (s : LRNOpState) (X Y : Tensor)
    (hT : X.dtype = ElemKind.float ∨ X.dtype = ElemKind.float16) :
    (CuDNNLRNOp.RunOnDevice s X Y).state.cudnn_input_dims_ = X.dims := by
  rcases hT with hf | hf <;> by_cases hc : X.dims = s.cudnn_input_dims_
  · rw [CuDNNLRNOp.run_float_norebuild s X Y hf hc]; exact hc.symm
  · rw [CuDNNLRNOp.run_float_rebuild s X Y hf hc]
  · rw [CuDNNLRNOp.run_half_norebuild s X Y hf hc]; exact hc.symm
  · rw [CuDNNLRNOp.run_half_rebuild s X Y hf hc]

/-- The descriptor/cache invariant is preserved by every forward run. -/
theorem CuDNNLRNOp.run_preserves_descReflectsCache (s : LRNOpState) (X Y : Tensor)
    (hs : s.descReflectsCache = true) :
    (CuDNNLRNOp.RunOnDevice s X Y).state.descReflectsCache = true := by
  by_cases hf : X.dtype = ElemKind.float
  · by_cases hc : X.dims = s.cudnn_input_dims_
    · rw [CuDNNLRNOp.run_float_norebuild s X Y hf hc]; exact hs
    · rw [CuDNNLRNOp.run_float_rebuild s X Y hf hc]
      simp [LRNOpState.descReflectsCache, descOf, Tensor.dim32]
  · by_cases hh : X.dtype = ElemKind.float16
    · by_cases hc : X.dims = s.cudnn_input_dims_
      · rw [CuDNNLRNOp.run_half_norebuild s X Y hh hc]; exact hs
      · rw [CuDNNLRNOp.run_half_rebuild s X Y hh hc]
        simp [LRNOpState.descReflectsCache, descOf, Tensor.dim32]
    · rw [CuDNNLRNOp.runOnDevice_unsupported s X Y hf hh]; exact hs

/-- The descriptor/cache invariant is preserved by every backward run. -/
theorem CuDNNLRNGradientOp.gradRun_preserves_descReflectsCache (s : LRNOpState)
    (X Y dY dX : Tensor) (hs : s.descReflectsCache = true) :
    (CuDNNLRNGradientOp.RunOnDevice s X Y dY dX).state.descReflectsCache = true := by
  by_cases hf : dY.dtype = ElemKind.float
  · by_cases hc : dY.dims = s.cudnn_input_dims_
    · rw [CuDNNLRNGradientOp.gradRun_float_norebuild s X Y dY dX hf hc]; exact hs
    · rw [CuDNNLRNGradientOp.gradRun_float_rebuild s X Y dY dX hf hc]
      simp [LRNOpState.descReflectsCache, descOf, Tensor.dim32]
  · by_cases hh : dY.dtype = ElemKind.float16
    · by_cases hc : dY.dims = s.cudnn_input_dims_
      · rw [CuDNNLRNGradientOp.gradRun_half_norebuild s X Y dY dX hh hc]; exact hs
      · rw [CuDNNLRNGradientOp.gradRun_half_rebuild s X Y dY dX hh hc]
        simp [LRNOpState.descReflectsCache, descOf, Tensor.dim32]
    · rw [CuDNNLRNGradientOp.gradRunOnDevice_unsupported s X Y dY dX hf hh]; exact hs

/-- C1: for every forward invocation from a state satisfying the
descriptor/cache invariant on a rank-4 input, at the moment the vendor
forward compute call is issued the cached shape equals X's dims and the
layout descriptor's extents equal X's batch/channel/height/width; when X's
dims differed from the cached dims, the descriptor passed to the compute
call is exactly the one rebuilt from X; the same holds for the backward
operator keyed on dY's dims. -/
theorem descriptor_cache_fresh_before_vendor_compute
    (s sg : LRNOpState) (X Y Xg Yg dYg dXg : Tensor)
    (hs : s.descReflectsCache = true) (h4 : X.dims.length = 4)
    (hsg : sg.descReflectsCache = true) (hg4 : dYg.dims.length = 4) :
    ((CuDNNLRNOp.RunOnDevice s X Y).err = none →
      (CuDNNLRNOp.RunOnDevice s X Y).state.cudnn_input_dims_ = X.dims ∧
      (∃ d, (CuDNNLRNOp.RunOnDevice s X Y).state.data_desc_ = some d ∧
        d.matchesDims X) ∧
      (CuDNNLRNOp.RunOnDevice s X Y).trace.getLast? =
        some (VendorCall.lrnCrossChannelForward X.dtype ElemKind.float
          ((CuDNNLRNOp.RunOnDevice s X Y).state.data_desc_) (X.dataRead X.dtype)) ∧
      (X.dims ≠ s.cudnn_input_dims_ →
        (CuDNNLRNOp.RunOnDevice s X Y).state.data_desc_ = some (descOf X.dtype X))) ∧
    ((CuDNNLRNGradientOp.RunOnDevice sg Xg Yg dYg dXg).err = none →
      (CuDNNLRNGradientOp.RunOnDevice sg Xg Yg dYg dXg).state.cudnn_input_dims_ = dYg.dims ∧
      (∃ d, (CuDNNLRNGradientOp.RunOnDevice sg Xg Yg dYg dXg).state.data_desc_ = some d ∧
        d.matchesDims dYg) ∧
      (CuDNNLRNGradientOp.RunOnDevice sg Xg Yg dYg dXg).trace.getLast? =
        some (VendorCall.lrnCrossChannelBackward dYg.dtype ElemKind.float
          ((CuDNNLRNGradientOp.RunOnDevice sg Xg Yg dYg dXg).state.data_desc_)
          (Yg.dataRead dYg.dtype) (dYg.dataRead dYg.dtype) (Xg.dataRead dYg.dtype)) ∧
      (dYg.dims ≠ sg.cudnn_input_dims_ →
        (CuDNNLRNGradientOp.RunOnDevice sg Xg Yg dYg dXg).state.data_desc_ =
          some (descOf dYg.dtype dYg))) := by
  constructor
  · intro herr
    have hne : X.dims ≠ [] := by
      intro h
      rw [h] at h4
      exact nomatch h4
    by_cases hf : X.dtype = ElemKind.float
    · by_cases hc : X.dims = s.cudnn_input_dims_
      · obtain ⟨d, hd, hm⟩ := descReflectsCache_elim s X hs hc hne
        rw [CuDNNLRNOp.run_float_norebuild s X Y hf hc]
        exact ⟨hc.symm, ⟨d, hd, hm⟩, by simp only [hf]; rfl, fun hcc => absurd hc hcc⟩
      · rw [CuDNNLRNOp.run_float_rebuild s X Y hf hc]
        exact ⟨rfl, ⟨descOf ElemKind.float X, rfl, rfl, rfl, rfl, rfl⟩,
          by simp only [hf]; rfl, fun _ => by simp only [hf]⟩
    · by_cases hh : X.dtype = ElemKind.float16
      · by_cases hc : X.dims = s.cudnn_input_dims_
        · obtain ⟨d, hd, hm⟩ := descReflectsCache_elim s X hs hc hne
          rw [CuDNNLRNOp.run_half_norebuild s X Y hh hc]
          exact ⟨hc.symm, ⟨d, hd, hm⟩, by simp only [hh]; rfl, fun hcc => absurd hc hcc⟩
        · rw [CuDNNLRNOp.run_half_rebuild s X Y hh hc]
          exact ⟨rfl, ⟨descOf ElemKind.float16 X, rfl, rfl, rfl, rfl, rfl⟩,
            by simp only [hh]; rfl, fun _ => by simp only [hh]⟩
      · rw [CuDNNLRNOp.runOnDevice_unsupported s X Y hf hh] at herr
        exact nomatch herr
  · intro herr
    have hne : dYg.dims ≠ [] := by
      intro h
      rw [h] at hg4
      exact nomatch hg4
    by_cases hf : dYg.dtype = ElemKind.float
    · by_cases hc : dYg.dims = sg.cudnn_input_dims_
      · obtain ⟨d, hd, hm⟩ := descReflectsCache_elim sg dYg hsg hc hne
        rw [CuDNNLRNGradientOp.gradRun_float_norebuild sg Xg Yg dYg dXg hf hc]
        exact ⟨hc.symm, ⟨d, hd, hm⟩, by simp only [hf]; rfl, fun hcc => absurd hc hcc⟩
      · rw [CuDNNLRNGradientOp.gradRun_float_rebuild sg Xg Yg dYg dXg hf hc]
        exact ⟨rfl, ⟨descOf ElemKind.float dYg, rfl, rfl, rfl, rfl, rfl⟩,
          by simp only [hf]; rfl, fun _ => by simp only [hf]⟩
    · by_cases hh : dYg.dtype = ElemKind.float16
      · by_cases hc : dYg.dims = sg.cudnn_input_dims_
        · obtain ⟨d, hd, hm⟩ := descReflectsCache_elim sg dYg hsg hc hne
          rw [CuDNNLRNGradientOp.gradRun_half_norebuild sg Xg Yg dYg dXg hh hc]
          exact ⟨hc.symm, ⟨d, hd, hm⟩, by simp only [hh]; rfl, fun hcc => absurd hc hcc⟩
        · rw [CuDNNLRNGradientOp.gradRun_half_rebuild sg Xg Yg dYg dXg hh hc]
          exact ⟨rfl, ⟨descOf ElemKind.float16 dYg, rfl, rfl, rfl, rfl, rfl⟩,
            by simp only [hh]; rfl, fun _ => by simp only [hh]⟩
      · rw [CuDNNLRNGradientOp.gradRunOnDevice_unsupported sg Xg Yg dYg dXg hf hh] at herr
        exact nomatch herr

/-- Witness for C1 from a freshly constructed operator on shape (2,8,4,4). -/
theorem descriptor_cache_fresh_before_vendor_compute_witness :
    s0.descReflectsCache = true ∧ xF.dims.length = 4 ∧
    ((CuDNNLRNOp.RunOnDevice s0 xF yScratch).err = none →
      (CuDNNLRNOp.RunOnDevice s0 xF yScratch).state.cudnn_input_dims_ = xF.dims) :=
  ⟨by decide, by decide, fun h =>
    ((descriptor_cache_fresh_before_vendor_compute s0 s0 xF yScratch xF xF xF yScratch
      (by decide) (by decide) (by decide) (by decide)).1 h).1⟩

/-- C2: for two consecutive forward invocations with inputs of identical
shape and supported element kinds, the second invocation issues no
set-layout call; and in any forward invocation a set-layout call is issued
only when the incoming shape differs from the cached shape. -/
theorem shape_cache_idempotent (s : LRNOpState) (X1 Y1 X2 Y2 : Tensor)
    (h1 : X1.dtype = ElemKind.float ∨ X1.dtype = ElemKind.float16)
    (h2 : X2.dtype = ElemKind.float ∨ X2.dtype = ElemKind.float16)
    (hdims : X2.dims = X1.dims) :
    traceHasSetLayout
      (CuDNNLRNOp.RunOnDevice (CuDNNLRNOp.RunOnDevice s X1 Y1).state X2 Y2).trace
        = false ∧
    (∀ s' X' Y', traceHasSetLayout (CuDNNLRNOp.RunOnDevice s' X' Y').trace = true →
      X'.dims ≠ s'.cudnn_input_dims_) ∧
    (∀ s' X' Y', (X'.dtype = ElemKind.float ∨ X'.dtype = ElemKind.float16) →
      X'.dims ≠ s'.cudnn_input_dims_ →
      traceHasSetLayout (CuDNNLRNOp.RunOnDevice s' X' Y').trace = true) := by
  refine ⟨?_, ?_, ?_⟩
  · have hc2 : X2.dims = (CuDNNLRNOp.RunOnDevice s X1 Y1).state.cudnn_input_dims_ := by
      rw [CuDNNLRNOp.run_cache_eq s X1 Y1 h1, hdims]
    rcases h2 with hf | hf
    · rw [CuDNNLRNOp.run_float_norebuild _ X2 Y2 hf hc2]; rfl
    · rw [CuDNNLRNOp.run_half_norebuild _ X2 Y2 hf hc2]; rfl
  · intro s' X' Y' htr hcc
    by_cases hf : X'.dtype = ElemKind.float
    · rw [CuDNNLRNOp.run_float_norebuild s' X' Y' hf hcc] at htr
      exact nomatch htr
    · by_cases hh : X'.dtype = ElemKind.float16
      · rw [CuDNNLRNOp.run_half_norebuild s' X' Y' hh hcc] at htr
        exact nomatch htr
      · rw [CuDNNLRNOp.runOnDevice_unsupported s' X' Y' hf hh] at htr
        exact nomatch htr
  · intro s' X' Y' hT hne
    rcases hT with hf | hf
    · rw [CuDNNLRNOp.run_float_rebuild s' X' Y' hf hne]; rfl
    · rw [CuDNNLRNOp.run_half_rebuild s' X' Y' hf hne]; rfl

/-- Witness for C2: two float runs of shape (2,8,4,4) from a fresh state. -/
theorem shape_cache_idempotent_witness :
    (xF.dtype = ElemKind.float ∨ xF.dtype = ElemKind.float16) ∧ xF.dims = xF.dims ∧
    traceHasSetLayout
      (CuDNNLRNOp.RunOnDevice (CuDNNLRNOp.RunOnDevice s0 xF yScratch).state xF yScratch).trace
        = false :=
  ⟨Or.inl rfl, rfl,
    (shape_cache_idempotent s0 xF yScratch xF yScratch (Or.inl rfl) (Or.inl rfl) rfl).1⟩

/-- C6: the backward operator's output dX always takes exactly dY's shape
(the resize happens before the type dispatch and the compute call), and
shape-change detection is keyed on dY's dims: a set-layout call occurs only
when dY's dims differ from the cached dims, and when one occurs it carries
dY's batch/channel/height/width, whatever X's and Y's shapes are. -/
theorem backward_output_shape_and_cache_key (s : LRNOpState) (X Y dY dX : Tensor) :
    (CuDNNLRNGradientOp.RunOnDevice s X Y dY dX).output.dims = dY.dims ∧
    (traceHasSetLayout (CuDNNLRNGradientOp.RunOnDevice s X Y dY dX).trace = true →
      dY.dims ≠ s.cudnn_input_dims_) ∧
    ((dY.dtype = ElemKind.float ∨ dY.dtype = ElemKind.float16) →
      dY.dims ≠ s.cudnn_input_dims_ →
      (CuDNNLRNGradientOp.RunOnDevice s X Y dY dX).trace.head? =
        some (VendorCall.setTensor4dDescriptor CudnnTensorFormat.NCHW dY.dtype
          (dY.dim32 0) (dY.dim32 1) (dY.dim32 2) (dY.dim32 3))) := by
  by_cases hf : dY.dtype = ElemKind.float
  · by_cases hc : dY.dims = s.cudnn_input_dims_
    · rw [CuDNNLRNGradientOp.gradRun_float_norebuild s X Y dY dX hf hc]
      refine ⟨rfl, fun htr => ?_, fun _ hcc => absurd hc hcc⟩
      simp [traceHasSetLayout] at htr
    · rw [CuDNNLRNGradientOp.gradRun_float_rebuild s X Y dY dX hf hc]
      exact ⟨rfl, fun _ => hc, fun _ _ => by simp only [hf]; rfl⟩
  · by_cases hh : dY.dtype = ElemKind.float16
    · by_cases hc : dY.dims = s.cudnn_input_dims_
      · rw [CuDNNLRNGradientOp.gradRun_half_norebuild s X Y dY dX hh hc]
        refine ⟨rfl, fun htr => ?_, fun _ hcc => absurd hc hcc⟩
        simp [traceHasSetLayout] at htr
      · rw [CuDNNLRNGradientOp.gradRun_half_rebuild s X Y dY dX hh hc]
        exact ⟨rfl, fun _ => hc, fun _ _ => by simp only [hh]; rfl⟩
    · rw [CuDNNLRNGradientOp.gradRunOnDevice_unsupported s X Y dY dX hf hh]
      refine ⟨rfl, fun htr => ?_, fun hT _ => ?_⟩
      · simp [traceHasSetLayout] at htr
      · cases hT with
        | inl h => exact absurd h hf
        | inr h => exact absurd h hh

/-- Witness for C6 with deliberately mismatched X and Y shapes. -/
theorem backward_output_shape_and_cache_key_witness :
    (CuDNNLRNGradientOp.RunOnDevice s0 yScratch yScratch xF yScratch).output.dims
      = xF.dims ∧ yScratch.dims ≠ xF.dims :=
  ⟨(backward_output_shape_and_cache_key s0 yScratch yScratch xF yScratch).1, by decide⟩

/-- C9: the shape cache keys only on the dimension vector, not the element
type: after a float run, a float16 run with identical dims issues no
set-layout call and leaves the layout descriptor exactly as the float run
left it — in particular, if the float run rebuilt it, it still records the
float element type. -/
theorem shape_cache_ignores_element_kind (s : LRNOpState) (X1 Y1 X2 Y2 : Tensor)
    (h1 : X1.dtype = ElemKind.float) (h2 : X2.dtype = ElemKind.float16)
    (hdims : X2.dims = X1.dims) :
    traceHasSetLayout
      (CuDNNLRNOp.RunOnDevice (CuDNNLRNOp.RunOnDevice s X1 Y1).state X2 Y2).trace
        = false ∧
    (CuDNNLRNOp.RunOnDevice (CuDNNLRNOp.RunOnDevice s X1 Y1).state X2 Y2).state.data_desc_
      = (CuDNNLRNOp.RunOnDevice s X1 Y1).state.data_desc_ ∧
    (X1.dims ≠ s.cudnn_input_dims_ →
      (CuDNNLRNOp.RunOnDevice (CuDNNLRNOp.RunOnDevice s X1 Y1).state X2 Y2).state.data_desc_
        = some (descOf ElemKind.float X1)) := by
  have hc2 : X2.dims = (CuDNNLRNOp.RunOnDevice s X1 Y1).state.cudnn_input_dims_ := by
    rw [CuDNNLRNOp.run_cache_eq s X1 Y1 (Or.inl h1), hdims]
  rw [CuDNNLRNOp.run_half_norebuild _ X2 Y2 h2 hc2]
  refine ⟨rfl, rfl, fun hne => ?_⟩
  rw [CuDNNLRNOp.run_float_rebuild s X1 Y1 h1 hne]

/-- Witness for C9: float run then float16 run, both of shape (2,8,4,4),
from a fresh state (whose cache is empty, so the first run rebuilds). -/
theorem shape_cache_ignores_element_kind_witness :
    xF.dtype = ElemKind.float ∧ xH.dtype = ElemKind.float16 ∧ xH.dims = xF.dims ∧
    xF.dims ≠ s0.cudnn_input_dims_ ∧
    (CuDNNLRNOp.RunOnDevice (CuDNNLRNOp.RunOnDevice s0 xF yScratch).state xH yScratch).state.data_desc_
      = some (descOf ElemKind.float xF) :=
  ⟨rfl, rfl, rfl, by decide,
    (shape_cache_ignores_element_kind s0 xF yScratch xH yScratch rfl rfl rfl).2.2
      (by decide)⟩

/-- C10: the backward operator inspects only dY: whatever the element kinds
and shapes of X and Y, a supported dY makes the run succeed with no error,
dX sized to dY's shape, and the vendor backward call is issued at dY's
element kind with X's and Y's buffers passed through raw (reinterpreted at
dY's kind and at the descriptor installed for dY's shape). -/
theorem backward_inspects_only_dY (s : LRNOpState) (X Y dY dX : Tensor)
    (hT : dY.dtype = ElemKind.float ∨ dY.dtype = ElemKind.float16) :
    (CuDNNLRNGradientOp.RunOnDevice s X Y dY dX).err = none ∧
    (CuDNNLRNGradientOp.RunOnDevice s X Y dY dX).output.dims = dY.dims ∧
    (CuDNNLRNGradientOp.RunOnDevice s X Y dY dX).trace.getLast? =
      some (VendorCall.lrnCrossChannelBackward dY.dtype ElemKind.float
        ((CuDNNLRNGradientOp.RunOnDevice s X Y dY dX).state.data_desc_)
        (Y.dataRead dY.dtype) (dY.dataRead dY.dtype) (X.dataRead dY.dtype)) ∧
    (Y.dataRead dY.dtype = Y.rawData ∧ X.dataRead dY.dtype = X.rawData) := by
  rcases hT with hf | hf <;> by_cases hc : dY.dims = s.cudnn_input_dims_
  · rw [CuDNNLRNGradientOp.gradRun_float_norebuild s X Y dY dX hf hc]
    exact ⟨rfl, rfl, by simp only [hf]; rfl, rfl, rfl⟩
  · rw [CuDNNLRNGradientOp.gradRun_float_rebuild s X Y dY dX hf hc]
    exact ⟨rfl, rfl, by simp only [hf]; rfl, rfl, rfl⟩
  · rw [CuDNNLRNGradientOp.gradRun_half_norebuild s X Y dY dX hf hc]
    exact ⟨rfl, rfl, by simp only [hf]; rfl, rfl, rfl⟩
  · rw [CuDNNLRNGradientOp.gradRun_half_rebuild s X Y dY dX hf hc]
    exact ⟨rfl, rfl, by simp only [hf]; rfl, rfl, rfl⟩

/-- Witness for C10: dY is float of shape (2,8,4,4) while X is int32 and Y
is a rank-1 float16 tensor of shape [7] — still no error is raised. -/
theorem backward_inspects_only_dY_witness :
    (xF.dtype = ElemKind.float ∨ xF.dtype = ElemKind.float16) ∧
    xI.dtype ≠ xF.dtype ∧ yH7.dims ≠ xF.dims ∧
    (CuDNNLRNGradientOp.RunOnDevice s0 xI yH7 xF yScratch).err = none :=
  ⟨Or.inl rfl, by decide, by decide,
    (backward_inspects_only_dY s0 xI yH7 xF yScratch (Or.inl rfl)).1⟩

/-- Witness for C4: a concrete int32 input makes the error fire. -/
theorem forward_unsupported_error_iff_witness :
    (CuDNNLRNOp.RunOnDevice s0 xI yScratch).err = some LRNError.unsupportedInputType :=
  (forward_unsupported_error_iff s0 xI yScratch).1.mpr (by decide)

/-- Witness for C7 at a concrete half-precision input. -/
theorem compute_type_pairing_characterization_witness :
    forwardComputePairs (CuDNNLRNOp.RunOnDevice s0 xH yScratch).trace =
      (if xH.dtype = ElemKind.float then [(ElemKind.float, ElemKind.float)]
       else if xH.dtype = ElemKind.float16 then [(ElemKind.float16, ElemKind.float)]
       else []) :=
  (compute_type_pairing_characterization s0 s0 xH yScratch xI yH7 xF yScratch).1

/-- Witness for C8 at a concrete invocation: the LRN descriptor survives a
forward run untouched. -/
theorem construction_defaults_and_immutability_witness :
    (CuDNNLRNOp.RunOnDevice s0 xF yScratch).state.norm_desc_ = s0.norm_desc_ :=
  (construction_defaults_and_immutability {} s0 s0 xF yScratch xI yH7 xF yScratch).2.2.2.1.1

end Caffe2LRN
